import Mathlib

/-!
Shallow embedding, over exact rational arithmetic, of the projection engine of
the Dorrigo property financial simulator (`app_working4.py`): stamp duty, LMI
estimation, mortgage payment and amortisation, annual aggregation, the
income/expense projection with retirement and education events, and the
mortgage payoff adjustment.  Python floats are modelled as rationals; integer
widget inputs are modelled as naturals/integers matching their widget ranges.
-/

namespace DorrigoSim

/-- The pre-rounding NSW transfer duty schedule: a fixed piecewise-linear
marginal-rate bracket chain, as written in `calculate_nsw_stamp_duty`. -/
def stamp_duty_raw (property_value : ℚ) : ℚ :=
  if property_value ≤ 16000 then property_value * 0.0125
  else if property_value ≤ 35000 then 200 + (property_value - 16000) * 0.015
  else if property_value ≤ 93000 then 485 + (property_value - 35000) * 0.0175
  else if property_value ≤ 351000 then 1500 + (property_value - 93000) * 0.035
  else if property_value ≤ 1168000 then 10530 + (property_value - 351000) * 0.045
  else if property_value ≤ 3504000 then 47295 + (property_value - 1168000) * 0.055
  else 175775 + (property_value - 3504000) * 0.07

/-- `calculate_nsw_stamp_duty`: nonpositive value gives 0 (returned before any
bracket is computed), otherwise the bracket schedule rounded up with `ceil`. -/
def calculate_nsw_stamp_duty (property_value : ℚ) : ℤ :=
  if property_value ≤ 0 then 0 else ⌈stamp_duty_raw property_value⌉

/-- `estimate_lmi`: returns `(ceil lmi_cost, lvr)`.  Nonpositive price or loan
short-circuits to `(0, 0)`; above 80 LVR a tiered percentage of the loan is
taken and multiplied by 1.095 (stamp duty on the LMI premium). -/
def estimate_lmi (property_price loan_amount : ℚ) : ℤ × ℚ :=
  if property_price ≤ 0 ∨ loan_amount ≤ 0 then (0, 0)
  else
    let lvr := loan_amount / property_price * 100
    let lmi_cost : ℚ :=
      if 80 < lvr then
        (if lvr ≤ 85 then loan_amount * 0.010
         else if lvr ≤ 90 then loan_amount * 0.018
         else if lvr ≤ 95 then loan_amount * 0.035
         else loan_amount * 0.045) * 1.095
      else 0
    (⌈lmi_cost⌉, lvr)

/-- `calculate_monthly_mortgage_payment`.  The guard returns 0 for nonpositive
loan, rate or term; the later `monthly_interest_rate == 0` and
`denominator == 0` fallbacks of the Python source are kept verbatim (over
exact rationals they are dead branches, which is part of what is proved
below).  `OverflowError` cannot occur over `ℚ` and is not modelled. -/
def calculate_monthly_mortgage_payment (loan_amount annual_interest_rate : ℚ)
    (loan_term_years : ℤ) : ℚ :=
  if loan_amount ≤ 0 ∨ annual_interest_rate ≤ 0 ∨ loan_term_years ≤ 0 then 0
  else
    let monthly_interest_rate := annual_interest_rate / 100 / 12
    let num_payments : ℕ := (loan_term_years * 12).toNat
    if num_payments = 0 then 0
    else if monthly_interest_rate = 0 then loan_amount / (num_payments : ℚ)
    else
      let denominator := (1 + monthly_interest_rate) ^ num_payments - 1
      if denominator = 0 then loan_amount / (num_payments : ℚ)
      else loan_amount * (monthly_interest_rate * (1 + monthly_interest_rate) ^ num_payments) /
        denominator

/-- The loop body of `calculate_loan_balance_over_time` for a positive scheduled
payment: each month accrues `max 0 (balance * rate)` interest, pays
`max 0 (payment - interest)` of principal, floors the balance at 0, and on
hitting exactly 0 pads the remaining entries with 0 and stops early. -/
def balLoop (monthly_interest_rate monthly_payment : ℚ) : ℚ → ℕ → List ℚ
  | _, 0 => []
  | b, steps + 1 =>
    let interest := max 0 (b * monthly_interest_rate)
    let principal_paid := max 0 (monthly_payment - interest)
    let b2 := max 0 (b - principal_paid)
    if b2 = 0 then b2 :: List.replicate steps 0
    else b2 :: balLoop monthly_interest_rate monthly_payment b2 steps

/-- `calculate_loan_balance_over_time`: the monthly balance series, index 0 =
origination balance.  Nonpositive loan or term gives an all-zero list; a
nonpositive payment with positive rate gives a compounding (growing) series;
a nonpositive payment with nonpositive rate gives a constant series. -/
def calculate_loan_balance_over_time (loan_amount annual_interest_rate monthly_payment : ℚ)
    (loan_term_years : ℤ) : List ℚ :=
  let num_payments : ℤ := loan_term_years * 12
  if loan_amount ≤ 0 ∨ loan_term_years ≤ 0 then List.replicate (num_payments + 1).toNat 0
  else if monthly_payment ≤ 0 then
    if 0 < annual_interest_rate then
      let monthly_rate := annual_interest_rate / 100 / 12
      loan_amount ::
        (List.range num_payments.toNat).map (fun i => loan_amount * (1 + monthly_rate) ^ (i + 1))
    else List.replicate (num_payments.toNat + 1) loan_amount
  else
    loan_amount ::
      balLoop (annual_interest_rate / 100 / 12) monthly_payment loan_amount num_payments.toNat

/-- The balance series driven by the scheduled payment, exactly as the main
script composes the two functions. -/
def scheduled_balance_series (loan_amount annual_interest_rate : ℚ)
    (loan_term_years : ℤ) : List ℚ :=
  calculate_loan_balance_over_time loan_amount annual_interest_rate
    (calculate_monthly_mortgage_payment loan_amount annual_interest_rate loan_term_years)
    loan_term_years

/-- Pad a list with trailing zeros to length `n`, truncating if longer — the
extend/truncate normalisation `calculate_annual_totals` applies to the
monthly balance list. -/
def padTo (l : List ℚ) (n : ℕ) : List ℚ := l.take n ++ List.replicate (n - l.length) 0

/-- The two data columns of the annual loan DataFrame (`Year` is the index). -/
structure AnnualLoanTable where
  loan_balance : List ℚ
  annual_mortgage_payment : List ℚ

/-- `calculate_annual_totals`: annual balance snapshots at 12-month boundaries
and annual payments reconstructed as (principal reduction over the year) +
(interest accrued month by month), clipped at the loan-term boundary; the
`Year == 0` payment entry is forced to 0 at the end. -/
def calculate_annual_totals (loan_balance : List ℚ) (monthly_payment : ℚ)
    (loan_term_years : ℤ) (projection_years : ℕ) (annual_interest_rate : ℚ) :
    AnnualLoanTable :=
  let num_years_df := projection_years + 1
  if loan_balance = [] ∨ loan_term_years ≤ 0 then
    ⟨List.replicate num_years_df 0, List.replicate num_years_df 0⟩
  else
    let full_term_payments : ℕ := (loan_term_years * 12).toNat
    let bal := padTo loan_balance (full_term_payments + 1)
    let monthly_rate : ℚ :=
      if 0 < annual_interest_rate then annual_interest_rate / 100 / 12 else 0
    let annual_balance_snapshots :=
      (List.range ((bal.length + 11) / 12)).map (fun y => bal.getD (y * 12) 0)
    let annual_payments_list := (List.range num_years_df).map (fun year =>
      if year * 12 < full_term_payments then
        let interest_paid_this_year :=
          ((List.range (min ((year + 1) * 12) full_term_payments - year * 12)).map
            (fun k => max 0 (bal.getD (year * 12 + k) 0 * monthly_rate))).sum
        let start_bal_idx := min (year * 12) (bal.length - 1)
        let end_bal_idx := min ((year + 1) * 12) (bal.length - 1)
        max 0 (bal.getD start_bal_idx 0 - bal.getD end_bal_idx 0) + interest_paid_this_year
      else 0)
    ⟨padTo annual_balance_snapshots num_years_df,
      (padTo annual_payments_list num_years_df).set 0 0⟩

/-- The total interest actually paid over the life of the loan under the
monthly schedule (interest accrues each month on the balance at the start of
that month).  This is the spec-side quantity of the round-trip property
"sum of annual payments = original principal + total interest paid". -/
def spec_total_interest (bal : List ℚ) (monthly_rate : ℚ) (num_payments : ℕ) : ℚ :=
  ((List.range num_payments).map (fun m => max 0 (bal.getD m 0 * monthly_rate))).sum

/-- Closed form of the amortising balance after `k` scheduled monthly payments
(a proof device, not part of the embedded program). -/
def closedBalance (P r : ℚ) (n k : ℕ) : ℚ :=
  P * ((1 + r) ^ n - (1 + r) ^ k) / ((1 + r) ^ n - 1)

/-- All inputs `project_income_expenses` consumes (plus the super/payoff event
parameters the main script reads next to it).  Monetary figures and rates are
rationals; year-valued widgets (`min_value = 0`, integer step) are naturals. -/
structure ProjInput where
  annual_user_income : ℚ
  annual_partner_income : ℚ
  annual_rental_income : ℚ
  annual_agistment_income : ℚ
  annual_living_expenses : ℚ
  annual_boarding_expenses : ℚ
  annual_council_rates : ℚ
  annual_insurance : ℚ
  annual_maintenance : ℚ
  annual_agistment_costs : ℚ
  annual_additional_property_expenses : ℚ
  projection_years : ℕ
  income_growth_rate : ℚ
  inflation_rate : ℚ
  rental_growth_rate : ℚ
  num_children_boarding : ℚ
  include_super_events : Bool
  user_retire_year : ℕ
  user_super_amount : ℚ
  wife_retire_year : ℕ
  wife_super_amount : ℚ
  post_retirement_income_user : ℚ
  post_retirement_income_partner : ℚ
  include_education_change : Bool
  years_until_edu_change : ℚ
  new_annual_edu_cost_per_child : ℚ
  duration_of_new_cost : ℕ

/-- The user's yearly employment income contribution: base grows at the income
growth rate, replaced by the constant post-retirement figure once
`year >= user_retire_year` when super events are enabled. -/
def user_income (p : ProjInput) (year : ℕ) : ℚ :=
  if p.include_super_events ∧ p.user_retire_year ≤ year then p.post_retirement_income_user
  else p.annual_user_income * (1 + p.income_growth_rate / 100) ^ year

/-- The partner's yearly employment income contribution (same rule with the
partner's retirement year and post-retirement figure). -/
def partner_income (p : ProjInput) (year : ℕ) : ℚ :=
  if p.include_super_events ∧ p.wife_retire_year ≤ year then p.post_retirement_income_partner
  else p.annual_partner_income * (1 + p.income_growth_rate / 100) ^ year

/-- `Employment_Income`: the two contributions combined after the individual
retirement adjustments. -/
def employment_income (p : ProjInput) (year : ℕ) : ℚ :=
  user_income p year + partner_income p year

/-- `Rental_Income`: base grown at the rental growth rate. -/
def rental_income (p : ProjInput) (year : ℕ) : ℚ :=
  p.annual_rental_income * (1 + p.rental_growth_rate / 100) ^ year

/-- `Agistment_Income`: base grown at the inflation rate. -/
def agistment_income (p : ProjInput) (year : ℕ) : ℚ :=
  p.annual_agistment_income * (1 + p.inflation_rate / 100) ^ year

/-- `Lump_Sum_Income`: each earner's super amount lands exactly in the year
equal to their retirement year, only when super events are enabled. -/
def lump_sum_income (p : ProjInput) (year : ℕ) : ℚ :=
  (if p.include_super_events ∧ year = p.user_retire_year then p.user_super_amount else 0) +
    (if p.include_super_events ∧ year = p.wife_retire_year then p.wife_super_amount else 0)

/-- `edu_change_ends_after_year = math.floor(years_until_edu_change)`. -/
def edu_change_ends_after_year (p : ProjInput) : ℤ := ⌊p.years_until_edu_change⌋

/-- `Education_Expenses`: three regimes when the phased change is enabled
(original fee through the floor of the change year, the new per-child fee
times child count during the window, then zero), otherwise the original fee
throughout; all inflated. -/
def education_expenses (p : ProjInput) (year : ℕ) : ℚ :=
  let inf_growth := (1 + p.inflation_rate / 100) ^ year
  let base_cost_no_inflation := p.annual_boarding_expenses
  let new_cost_base_no_inflation := p.new_annual_edu_cost_per_child * p.num_children_boarding
  if p.include_education_change then
    if (year : ℤ) ≤ edu_change_ends_after_year p then base_cost_no_inflation * inf_growth
    else if edu_change_ends_after_year p + 1 ≤ (year : ℤ) ∧
        (year : ℤ) ≤ edu_change_ends_after_year p + (p.duration_of_new_cost : ℤ) then
      new_cost_base_no_inflation * inf_growth
    else 0
  else base_cost_no_inflation * inf_growth

/-- `Total_Income` = employment + rental + agistment + lump sums. -/
def total_income (p : ProjInput) (year : ℕ) : ℚ :=
  employment_income p year + rental_income p year + agistment_income p year +
    lump_sum_income p year

/-- `Total_Expenses_Excl_Mortgage`: the seven inflation-grown expense columns
plus education. -/
def total_expenses_excl_mortgage (p : ProjInput) (year : ℕ) : ℚ :=
  p.annual_living_expenses * (1 + p.inflation_rate / 100) ^ year +
    education_expenses p year +
    p.annual_council_rates * (1 + p.inflation_rate / 100) ^ year +
    p.annual_insurance * (1 + p.inflation_rate / 100) ^ year +
    p.annual_maintenance * (1 + p.inflation_rate / 100) ^ year +
    p.annual_agistment_costs * (1 + p.inflation_rate / 100) ^ year +
    p.annual_additional_property_expenses * (1 + p.inflation_rate / 100) ^ year

/-- `Total_Expenses` adds the year's mortgage payment (the column left-joined
from the annual loan table, a parameter here as in the source). -/
def total_expenses (p : ProjInput) (amp : ℕ → ℚ) (year : ℕ) : ℚ :=
  total_expenses_excl_mortgage p year + amp year

/-- `Net_Cashflow` = income − expenses, with year 0 forced to exactly 0. -/
def net_cashflow (p : ProjInput) (amp : ℕ → ℚ) (year : ℕ) : ℚ :=
  if year = 0 then 0 else total_income p year - total_expenses p amp year

/-- `Cumulative_Cashflow`: the running sum (`cumsum`) of a net-cashflow column
over rows 0..year. -/
def cumulative_cashflow (net : ℕ → ℚ) (year : ℕ) : ℚ :=
  ∑ k in Finset.range (year + 1), net k

/-- The columns of `merged_data` the Mortgage Payoff Logic block reads or
writes, as year-indexed columns. -/
structure MergedTable where
  total_income : ℕ → ℚ
  total_expenses_excl_mortgage : ℕ → ℚ
  annual_mortgage_payment : ℕ → ℚ
  total_expenses : ℕ → ℚ
  net_cashflow : ℕ → ℚ
  loan_balance : ℕ → ℚ
  mortgage_lump_sum_payment : ℕ → ℚ

/-- `merged_data` before the payoff block: the projection columns merged with
the loan table's `Loan_Balance` column, and `Mortgage_Lump_Sum_Payment`
initialised to 0. -/
def mergedOf (p : ProjInput) (amp lb : ℕ → ℚ) : MergedTable where
  total_income := total_income p
  total_expenses_excl_mortgage := total_expenses_excl_mortgage p
  annual_mortgage_payment := amp
  total_expenses := total_expenses p amp
  net_cashflow := net_cashflow p amp
  loan_balance := lb
  mortgage_lump_sum_payment := fun _ => 0

/-- `amount_paid_off = max(0, min(super_available, balance_at_payoff_year))`. -/
def payoff_amount (super_amount balance : ℚ) : ℚ := max 0 (min super_amount balance)

/-- The Mortgage Payoff Logic block: triggered only when super events and the
payoff flag are set and the retirement year is a row of the table; when the
clamped amount is positive it pins the balance, zeroes the mortgage payment,
rewrites total expenses for all years ≥ the payoff year, records the lump-sum
payment, recomputes `Net_Cashflow` for every row (year 0 re-forced to 0), and
recomputes `Cumulative_Cashflow` as a fresh running sum (the running sum
itself is taken by `cumulative_cashflow` of the new net column). -/
def applyPayoff (t : MergedTable) (include_super_events use_your_super_payoff : Bool)
    (user_retire_year : ℕ) (user_super_amount : ℚ) (projection_years : ℕ) : MergedTable :=
  if include_super_events ∧ use_your_super_payoff ∧ user_retire_year ≤ projection_years then
    let loan_balance_at_payoff_year := t.loan_balance user_retire_year
    let amount_paid_off := payoff_amount user_super_amount loan_balance_at_payoff_year
    let new_loan_balance_after_payoff := max 0 (loan_balance_at_payoff_year - amount_paid_off)
    if 0 < amount_paid_off then
      let lump := fun y => if y = user_retire_year then amount_paid_off else 0
      let te2 := fun y =>
        if user_retire_year ≤ y then t.total_expenses_excl_mortgage y else t.total_expenses y
      { total_income := t.total_income
        total_expenses_excl_mortgage := t.total_expenses_excl_mortgage
        annual_mortgage_payment := fun y =>
          if user_retire_year ≤ y then 0 else t.annual_mortgage_payment y
        total_expenses := te2
        net_cashflow := fun y => if y = 0 then 0 else t.total_income y - te2 y - lump y
        loan_balance := fun y =>
          if user_retire_year ≤ y then new_loan_balance_after_payoff else t.loan_balance y
        mortgage_lump_sum_payment := lump }
    else t
  else t

/-- The adjusted table as the main script produces it: the merged projection
table, then the payoff block driven by the same event inputs. -/
def adjusted_table (p : ProjInput) (amp lb : ℕ → ℚ) (use_your_super_payoff : Bool) :
    MergedTable :=
  applyPayoff (mergedOf p amp lb) p.include_super_events use_your_super_payoff
    p.user_retire_year p.user_super_amount p.projection_years

/-- A concrete scenario used to instantiate the claims: one earner on 5,000 a
year retiring at year 2 with a 600 super lump sum, flat growth rates, a
3-year horizon, education phasing off. -/
def cexInput : ProjInput where
  annual_user_income := 5000
  annual_partner_income := 0
  annual_rental_income := 0
  annual_agistment_income := 0
  annual_living_expenses := 0
  annual_boarding_expenses := 0
  annual_council_rates := 0
  annual_insurance := 0
  annual_maintenance := 0
  annual_agistment_costs := 0
  annual_additional_property_expenses := 0
  projection_years := 3
  income_growth_rate := 0
  inflation_rate := 0
  rental_growth_rate := 0
  num_children_boarding := 0
  include_super_events := true
  user_retire_year := 2
  user_super_amount := 600
  wife_retire_year := 100
  wife_super_amount := 0
  post_retirement_income_user := 5000
  post_retirement_income_partner := 0
  include_education_change := false
  years_until_edu_change := 0
  new_annual_edu_cost_per_child := 0
  duration_of_new_cost := 0

/-- A concrete annual mortgage payment column: 1,000 a year from year 1 on. -/
def cexAmp : ℕ → ℚ := fun y => if y = 0 then 0 else 1000

/-- A concrete loan balance column: 10,000 at origination, falling 1,000 a
year. -/
def cexLb : ℕ → ℚ := fun y => 10000 - 1000 * (y : ℚ)

/-- The spec's education-phasing scenario: one child, 50,000 initial fee,
change at year 3.5, new fee 15,000 for 4 years. -/
def eduInput : ProjInput :=
  { cexInput with
    include_education_change := true
    years_until_edu_change := 3.5
    new_annual_edu_cost_per_child := 15000
    duration_of_new_cost := 4
    num_children_boarding := 1
    annual_boarding_expenses := 50000 }

set_option maxHeartbeats 1600000 in
lemma stamp_duty_raw_mono : Monotone stamp_duty_raw := by
  intro a b hab
  unfold stamp_duty_raw
  split_ifs <;> linarith

lemma stamp_duty_raw_nonneg (v : ℚ) (hv : 0 ≤ v) : 0 ≤ stamp_duty_raw v := by
  have h1 : stamp_duty_raw 0 ≤ stamp_duty_raw v := stamp_duty_raw_mono hv
  have h0 : stamp_duty_raw 0 = 0 := by norm_num [stamp_duty_raw]
  linarith

/-- Claim C10: `calculate_nsw_stamp_duty` is total, non-negative and monotone
non-decreasing: for property values `v1 ≤ v2`, `0 ≤ duty v1 ≤ duty v2`; each
bracket base equals the accumulated duty at the bracket floor, so the
pre-rounding schedule is continuous and taking the ceiling preserves
monotonicity. -/
theorem stamp_duty_monotone (v1 v2 : ℚ) (h : v1 ≤ v2) :
    0 ≤ calculate_nsw_stamp_duty v1 ∧
      calculate_nsw_stamp_duty v1 ≤ calculate_nsw_stamp_duty v2 := by
  have hnn : ∀ v : ℚ, 0 ≤ calculate_nsw_stamp_duty v := by
    intro v
    unfold calculate_nsw_stamp_duty
    split_ifs with h1
    · exact le_refl 0
    · exact Int.ceil_nonneg (stamp_duty_raw_nonneg v (le_of_not_le h1))
  refine ⟨hnn v1, ?_⟩
  by_cases h1 : v1 ≤ 0
  · have hz : calculate_nsw_stamp_duty v1 = 0 := by
      unfold calculate_nsw_stamp_duty
      rw [if_pos h1]
    rw [hz]
    exact hnn v2
  · have h2 : ¬ v2 ≤ 0 := fun hc => h1 (le_trans h hc)
    unfold calculate_nsw_stamp_duty
    rw [if_neg h1, if_neg h2]
    exact Int.ceil_mono (stamp_duty_raw_mono h)

/-- Claim C10 witness at `v1 = 100000`, `v2 = 2000000`. -/
theorem stamp_duty_monotone_witness :
    (100000 : ℚ) ≤ 2000000 ∧
      (0 ≤ calculate_nsw_stamp_duty 100000 ∧
        calculate_nsw_stamp_duty 100000 ≤ calculate_nsw_stamp_duty 2000000) :=
  ⟨by norm_num, stamp_duty_monotone 100000 2000000 (by norm_num)⟩

/-- Claim C9: `estimate_lmi` returns `(0, 0)` for nonpositive price; for
positive price (and a loan in the documented domain `loan ≥ 0`) it returns
the exact LVR, premium 0 at or below 80 LVR, and above 80 a strictly
positive premium `ceil(loan * tier * 1.095)` with the tiers
(80,85] → 1.0%, (85,90] → 1.8%, (90,95] → 3.5%, above 95 → 4.5%. -/
theorem estimate_lmi_spec (price loan : ℚ) (hl : 0 ≤ loan) :
    (price ≤ 0 → estimate_lmi price loan = (0, 0)) ∧
    (0 < price →
      (estimate_lmi price loan).2 = loan / price * 100 ∧
      (loan / price * 100 ≤ 80 → (estimate_lmi price loan).1 = 0) ∧
      (80 < loan / price * 100 →
        0 < (estimate_lmi price loan).1 ∧
        (estimate_lmi price loan).1 =
          ⌈loan * (if loan / price * 100 ≤ 85 then 0.010
            else if loan / price * 100 ≤ 90 then 0.018
            else if loan / price * 100 ≤ 95 then 0.035 else 0.045) * 1.095⌉)) := by
  constructor
  · intro hp
    simp only [estimate_lmi, if_pos (Or.inl hp)]
  · intro hp
    rcases eq_or_lt_of_le hl with hzero | hpos
    · subst hzero
      have heq : estimate_lmi price 0 = (0, 0) := by
        simp only [estimate_lmi, if_pos (Or.inr (le_refl (0 : ℚ)))]
      rw [heq]
      refine ⟨by rw [zero_div, zero_mul], fun _ => rfl, fun habs => ?_⟩
      rw [zero_div, zero_mul] at habs
      norm_num at habs
    · have hg : ¬(price ≤ 0 ∨ loan ≤ 0) := by push_neg; exact ⟨hp, hpos⟩
      simp only [estimate_lmi, if_neg hg]
      refine ⟨trivial, fun hle => ?_, fun hgt => ?_⟩
      · rw [if_neg (not_lt.mpr hle), Int.ceil_zero]
      · rw [if_pos hgt]
        constructor
        · apply Int.ceil_pos.mpr
          split_ifs <;> nlinarith
        · congr 1
          split_ifs <;> ring

/-- Claim C9 witness at `price = 100`, `loan = 90` (LVR 90, tier 1.8%). -/
theorem estimate_lmi_spec_witness :
    (0 : ℚ) ≤ 90 ∧
      ((100 : ℚ) ≤ 0 → estimate_lmi 100 90 = (0, 0)) ∧
      (0 < (100 : ℚ) →
        (estimate_lmi 100 90).2 = 90 / 100 * 100 ∧
        ((90 : ℚ) / 100 * 100 ≤ 80 → (estimate_lmi 100 90).1 = 0) ∧
        (80 < (90 : ℚ) / 100 * 100 →
          0 < (estimate_lmi 100 90).1 ∧
          (estimate_lmi 100 90).1 =
            ⌈(90 : ℚ) * (if (90 : ℚ) / 100 * 100 ≤ 85 then 0.010
              else if (90 : ℚ) / 100 * 100 ≤ 90 then 0.018
              else if (90 : ℚ) / 100 * 100 ≤ 95 then 0.035 else 0.045) * 1.095⌉)) :=
  ⟨by norm_num, estimate_lmi_spec 100 90 (by norm_num)⟩

lemma one_lt_one_add_pow {r : ℚ} (hr : 0 < r) {n : ℕ} (hn : n ≠ 0) : 1 < (1 + r) ^ n :=
  one_lt_pow₀ (by linarith) hn

lemma monthly_payment_eq (P rate : ℚ) (t : ℤ) (hP : 0 < P) (hr : 0 < rate) (ht : 0 < t) :
    calculate_monthly_mortgage_payment P rate t =
      P * ((rate / 100 / 12) * (1 + rate / 100 / 12) ^ (t * 12).toNat) /
        ((1 + rate / 100 / 12) ^ (t * 12).toNat - 1) := by
  have hg : ¬(P ≤ 0 ∨ rate ≤ 0 ∨ t ≤ 0) := by push_neg; exact ⟨hP, hr, ht⟩
  have hn : (t * 12).toNat ≠ 0 := by omega
  have hrm : 0 < rate / 100 / 12 := by positivity
  have hd : (1 + rate / 100 / 12) ^ (t * 12).toNat - 1 ≠ 0 := by
    have := one_lt_one_add_pow hrm hn
    intro hc
    linarith [sub_eq_zero.mp hc]
  simp only [calculate_monthly_mortgage_payment, if_neg hg, if_neg hn, if_neg hrm.ne',
    if_neg hd]

lemma monthly_payment_pos (P rate : ℚ) (t : ℤ) (hP : 0 < P) (hr : 0 < rate) (ht : 0 < t) :
    0 < calculate_monthly_mortgage_payment P rate t := by
  rw [monthly_payment_eq P rate t hP hr ht]
  have hn : (t * 12).toNat ≠ 0 := by omega
  have hrm : 0 < rate / 100 / 12 := by positivity
  have hd : 0 < (1 + rate / 100 / 12) ^ (t * 12).toNat - 1 := by
    have := one_lt_one_add_pow hrm hn
    linarith
  have hpow : 0 < (1 + rate / 100 / 12) ^ (t * 12).toNat := by positivity
  exact div_pos (by positivity) hd

/-- Claim C4 (amended): the guard returns 0 exactly when loan ≤ 0, rate ≤ 0 or
term ≤ 0, and otherwise the annuity formula value is returned; over exact
arithmetic the `r = 0` and zero-denominator fallback branches are
unreachable — in particular rate = 0 hits the `rate ≤ 0` guard and yields 0,
not the straight-line payment P/n. -/
theorem monthly_payment_characterization (P rate : ℚ) (t : ℤ) :
    calculate_monthly_mortgage_payment P rate t =
      if P ≤ 0 ∨ rate ≤ 0 ∨ t ≤ 0 then 0
      else P * ((rate / 100 / 12) * (1 + rate / 100 / 12) ^ (t * 12).toNat) /
        ((1 + rate / 100 / 12) ^ (t * 12).toNat - 1) := by
  by_cases h : P ≤ 0 ∨ rate ≤ 0 ∨ t ≤ 0
  · rw [if_pos h]
    simp only [calculate_monthly_mortgage_payment, if_pos h]
  · rw [if_neg h]
    push_neg at h
    exact monthly_payment_eq P rate t h.1 h.2.1 h.2.2

/-- Claim C4 counterexample: at loan 1200, rate 0, term 10 the monthly rate r
is 0, yet the function returns 0 (the `rate ≤ 0` guard fires first), while
the claim's straight-line value P/n is 10 ≠ 0. -/
theorem monthly_payment_zero_rate_counterexample :
    calculate_monthly_mortgage_payment 1200 0 10 = 0 ∧
      (1200 : ℚ) / ((10 : ℚ) * 12) = 10 ∧ (10 : ℚ) ≠ 0 := by
  refine ⟨?_, by norm_num, by norm_num⟩
  simp only [calculate_monthly_mortgage_payment]
  norm_num

lemma pow_denom_pos {r : ℚ} (hr : 0 < r) {n : ℕ} (hn : n ≠ 0) : (0 : ℚ) < (1 + r) ^ n - 1 := by
  have := one_lt_one_add_pow hr hn
  linarith

lemma closedBalance_zero (P : ℚ) {r : ℚ} (hr : 0 < r) {n : ℕ} (hn : n ≠ 0) :
    closedBalance P r n 0 = P := by
  unfold closedBalance
  rw [pow_zero, mul_div_assoc, div_self (pow_denom_pos hr hn).ne', mul_one]

lemma closedBalance_nonneg {P r : ℚ} (hP : 0 < P) (hr : 0 < r) {n k : ℕ} (hn : n ≠ 0)
    (hk : k ≤ n) : 0 ≤ closedBalance P r n k := by
  unfold closedBalance
  have h1 : (1 + r) ^ k ≤ (1 + r) ^ n := pow_le_pow_right₀ (by linarith) hk
  exact div_nonneg (mul_nonneg hP.le (by linarith)) (pow_denom_pos hr hn).le

lemma closedBalance_pos {P r : ℚ} (hP : 0 < P) (hr : 0 < r) {n k : ℕ} (hk : k < n) :
    0 < closedBalance P r n k := by
  unfold closedBalance
  have h1 : (1 + r) ^ k < (1 + r) ^ n := pow_lt_pow_right₀ (by linarith) hk
  exact div_pos (mul_pos hP (by linarith)) (pow_denom_pos hr (by omega))

lemma closedBalance_last (P r : ℚ) (n : ℕ) : closedBalance P r n n = 0 := by
  unfold closedBalance
  rw [sub_self, mul_zero, zero_div]

lemma closedBalance_antitone {P r : ℚ} (hP : 0 < P) (hr : 0 < r) {n i j : ℕ} (hn : n ≠ 0)
    (hij : i ≤ j) : closedBalance P r n j ≤ closedBalance P r n i := by
  unfold closedBalance
  have h1 : (1 + r) ^ i ≤ (1 + r) ^ j := pow_le_pow_right₀ (by linarith) hij
  exact (div_le_div_iff_of_pos_right (pow_denom_pos hr hn)).mpr (by nlinarith)

lemma loan_step_closed {P r : ℚ} (hP : 0 < P) (hr : 0 < r) {n k : ℕ} (hk : k < n) :
    max 0 (closedBalance P r n k -
      max 0 (P * (r * (1 + r) ^ n) / ((1 + r) ^ n - 1) -
        max 0 (closedBalance P r n k * r))) = closedBalance P r n (k + 1) := by
  have hn : n ≠ 0 := by omega
  have hd := pow_denom_pos hr hn
  have hb : 0 ≤ closedBalance P r n k := closedBalance_nonneg hP hr hn hk.le
  rw [max_eq_right (mul_nonneg hb hr.le)]
  have h2 : P * (r * (1 + r) ^ n) / ((1 + r) ^ n - 1) - closedBalance P r n k * r =
      P * r * (1 + r) ^ k / ((1 + r) ^ n - 1) := by
    unfold closedBalance
    field_simp
    ring
  have h2pos : (0 : ℚ) < P * r * (1 + r) ^ k / ((1 + r) ^ n - 1) :=
    div_pos (by positivity) hd
  rw [h2, max_eq_right h2pos.le]
  have h3 : closedBalance P r n k - P * r * (1 + r) ^ k / ((1 + r) ^ n - 1) =
      closedBalance P r n (k + 1) := by
    unfold closedBalance
    field_simp
    ring
  rw [h3]
  exact max_eq_right (closedBalance_nonneg hP hr hn hk)

lemma balLoop_closed {P r : ℚ} (n : ℕ) (hP : 0 < P) (hr : 0 < r) :
    ∀ steps k, k + steps = n →
      balLoop r (P * (r * (1 + r) ^ n) / ((1 + r) ^ n - 1)) (closedBalance P r n k) steps =
        (List.range steps).map (fun i => closedBalance P r n (k + 1 + i)) := by
  intro steps
  induction steps with
  | zero => intro k _; simp [balLoop]
  | succ s ih =>
    intro k hk
    have hkn : k < n := by omega
    simp only [balLoop]
    rw [loan_step_closed hP hr hkn]
    by_cases hs : s = 0
    · subst hs
      have hkn1 : k + 1 = n := by omega
      rw [if_pos (by rw [hkn1]; exact closedBalance_last P r n)]
      simp [List.range_succ_eq_map, hkn1, closedBalance_last]
    · have hk1n : k + 1 < n := by omega
      rw [if_neg (closedBalance_pos hP hr hk1n).ne', ih (k + 1) (by omega)]
      rw [List.range_succ_eq_map, List.map_cons, List.map_map]
      congr 1
      refine List.map_congr_left (fun i _ => ?_)
      simp only [Function.comp_apply, Nat.succ_eq_add_one]
      congr 1
      omega

lemma scheduled_balance_series_eq (P rate : ℚ) (t : ℤ) (hP : 0 < P) (hr : 0 < rate)
    (ht : 0 < t) :
    scheduled_balance_series P rate t =
      (List.range ((t * 12).toNat + 1)).map
        (fun k => closedBalance P (rate / 100 / 12) (t * 12).toNat k) := by
  have hn : (t * 12).toNat ≠ 0 := by omega
  have hM := monthly_payment_pos P rate t hP hr ht
  have hrm : 0 < rate / 100 / 12 := by positivity
  have h0 : closedBalance P (rate / 100 / 12) (t * 12).toNat 0 = P := closedBalance_zero P hrm hn
  have hg : ¬(P ≤ 0 ∨ t ≤ 0) := by push_neg; exact ⟨hP, ht⟩
  unfold scheduled_balance_series calculate_loan_balance_over_time
  rw [if_neg hg, if_neg (not_le.mpr hM), monthly_payment_eq P rate t hP hr ht]
  have htail := balLoop_closed (t * 12).toNat hP hrm (t * 12).toNat 0 (by omega)
  rw [h0] at htail
  rw [htail, List.range_succ_eq_map, List.map_cons, List.map_map]
  congr 1
  · exact h0.symm
  · refine List.map_congr_left (fun i _ => ?_)
    simp only [Function.comp_apply, Nat.succ_eq_add_one]
    congr 1
    omega

lemma scheduled_balance_length (P rate : ℚ) (t : ℤ) (hP : 0 < P) (hr : 0 < rate) (ht : 0 < t) :
    (scheduled_balance_series P rate t).length = (t * 12).toNat + 1 := by
  rw [scheduled_balance_series_eq P rate t hP hr ht]
  simp

lemma scheduled_balance_getD (P rate : ℚ) (t : ℤ) (hP : 0 < P) (hr : 0 < rate) (ht : 0 < t)
    {i : ℕ} (hi : i ≤ (t * 12).toNat) :
    (scheduled_balance_series P rate t).getD i 0 =
      closedBalance P (rate / 100 / 12) (t * 12).toNat i := by
  rw [scheduled_balance_series_eq P rate t hP hr ht]
  have hlen : i < ((List.range ((t * 12).toNat + 1)).map
      (fun k => closedBalance P (rate / 100 / 12) (t * 12).toNat k)).length := by
    simp
    omega
  rw [List.getD_eq_getElem _ _ hlen, List.getElem_map, List.getElem_range]

/-- Claim C5: for positive loan, rate and term, with the scheduled payment
from `calculate_monthly_mortgage_payment`, the balance series starts at the
loan amount, has length `term*12 + 1`, is non-increasing, is zero-absorbing,
and is exactly 0 at index `term*12`. -/
theorem loan_balance_series_props (P rate : ℚ) (t : ℤ)
    (hP : 0 < P) (hr : 0 < rate) (ht : 0 < t) :
    (scheduled_balance_series P rate t).getD 0 0 = P ∧
    (scheduled_balance_series P rate t).length = (t * 12).toNat + 1 ∧
    (∀ i j, i ≤ j → j < (scheduled_balance_series P rate t).length →
      (scheduled_balance_series P rate t).getD j 0 ≤
        (scheduled_balance_series P rate t).getD i 0) ∧
    (∀ i j, i ≤ j → (scheduled_balance_series P rate t).getD i 0 = 0 →
      (scheduled_balance_series P rate t).getD j 0 = 0) ∧
    (scheduled_balance_series P rate t).getD ((t * 12).toNat) 0 = 0 := by
  have hn : (t * 12).toNat ≠ 0 := by omega
  have hrm : 0 < rate / 100 / 12 := by positivity
  have hlen := scheduled_balance_length P rate t hP hr ht
  refine ⟨?_, hlen, ?_, ?_, ?_⟩
  · rw [scheduled_balance_getD P rate t hP hr ht (Nat.zero_le _)]
    exact closedBalance_zero P hrm hn
  · intro i j hij hj
    rw [hlen] at hj
    have hjn : j ≤ (t * 12).toNat := by omega
    rw [scheduled_balance_getD P rate t hP hr ht hjn,
      scheduled_balance_getD P rate t hP hr ht (le_trans hij hjn)]
    exact closedBalance_antitone hP hrm hn hij
  · intro i j hij hzero
    by_cases hi : i ≤ (t * 12).toNat
    · rw [scheduled_balance_getD P rate t hP hr ht hi] at hzero
      have hieq : i = (t * 12).toNat := by
        by_contra hne
        exact absurd hzero (closedBalance_pos hP hrm (by omega)).ne'
      by_cases hj : j ≤ (t * 12).toNat
      · have : j = (t * 12).toNat := by omega
        rw [scheduled_balance_getD P rate t hP hr ht hj, this]
        exact closedBalance_last _ _ _
      · exact List.getD_eq_default _ _ (by omega)
    · exact List.getD_eq_default _ _ (by omega)
  · rw [scheduled_balance_getD P rate t hP hr ht (le_refl _)]
    exact closedBalance_last _ _ _

/-- Claim C5 witness at loan 1200, rate 12, term 1. -/
theorem loan_balance_series_props_witness :
    (0 : ℚ) < 1200 ∧ (0 : ℚ) < 12 ∧ (0 : ℤ) < 1 ∧
    ((scheduled_balance_series 1200 12 1).getD 0 0 = 1200 ∧
      (scheduled_balance_series 1200 12 1).length = ((1 : ℤ) * 12).toNat + 1 ∧
      (∀ i j, i ≤ j → j < (scheduled_balance_series 1200 12 1).length →
        (scheduled_balance_series 1200 12 1).getD j 0 ≤
          (scheduled_balance_series 1200 12 1).getD i 0) ∧
      (∀ i j, i ≤ j → (scheduled_balance_series 1200 12 1).getD i 0 = 0 →
        (scheduled_balance_series 1200 12 1).getD j 0 = 0) ∧
      (scheduled_balance_series 1200 12 1).getD (((1 : ℤ) * 12).toNat) 0 = 0) :=
  ⟨by norm_num, by norm_num, by norm_num,
    loan_balance_series_props 1200 12 1 (by norm_num) (by norm_num) (by norm_num)⟩

lemma annual_payment_column_term_one (bal : List ℚ) (M rate : ℚ) (hne : bal ≠ []) :
    (calculate_annual_totals bal M 1 1 rate).annual_mortgage_payment = [0, 0] := by
  have hg : ¬(bal = [] ∨ (1 : ℤ) ≤ 0) := by push_neg; exact ⟨hne, by norm_num⟩
  simp only [calculate_annual_totals]
  rw [if_neg hg]
  rfl

/-- Claim C6: the claimed round trip fails on the code.  At loan 1200, rate
12, term 1 year, projection 1 year, the annual payment column of
`calculate_annual_totals` is all zeros (each row aggregates the months of the
FOLLOWING year and row 0 — which received the real first twelve payments —
is then forced to 0), so its sum is 0, while original principal plus total
interest actually paid is at least 1200. -/
theorem annual_payment_sum_mismatch :
    ((calculate_annual_totals (scheduled_balance_series 1200 12 1)
        (calculate_monthly_mortgage_payment 1200 12 1) 1 1 12).annual_mortgage_payment).sum =
      0 ∧
    ((calculate_annual_totals (scheduled_balance_series 1200 12 1)
        (calculate_monthly_mortgage_payment 1200 12 1) 1 1 12).annual_mortgage_payment).sum ≠
      1200 + spec_total_interest (scheduled_balance_series 1200 12 1) (12 / 100 / 12) 12 := by
  have hlen := scheduled_balance_length 1200 12 1 (by norm_num) (by norm_num) (by norm_num)
  have hne : scheduled_balance_series 1200 12 1 ≠ [] := by
    intro hc
    rw [hc] at hlen
    simp at hlen
  have hsum : ((calculate_annual_totals (scheduled_balance_series 1200 12 1)
      (calculate_monthly_mortgage_payment 1200 12 1) 1 1 12).annual_mortgage_payment).sum = 0 := by
    rw [annual_payment_column_term_one _ _ _ hne]
    norm_num
  refine ⟨hsum, ?_⟩
  rw [hsum]
  have hge : 0 ≤ spec_total_interest (scheduled_balance_series 1200 12 1) (12 / 100 / 12) 12 := by
    unfold spec_total_interest
    apply List.sum_nonneg
    intro x hx
    simp only [List.mem_map] at hx
    obtain ⟨m, _, rfl⟩ := hx
    exact le_max_left _ _
  intro hc
  linarith

lemma cumulative_succ (net : ℕ → ℚ) {y : ℕ} (hy : 1 ≤ y) :
    cumulative_cashflow net y = cumulative_cashflow net (y - 1) + net y := by
  obtain ⟨z, rfl⟩ : ∃ z, y = z + 1 := ⟨y - 1, by omega⟩
  simp only [cumulative_cashflow, Nat.add_sub_cancel]
  exact Finset.sum_range_succ net (z + 1)

lemma applyPayoff_pos_eq (t : MergedTable) (b1 b2 : Bool) (ur : ℕ) (s : ℚ) (py : ℕ)
    (hb1 : b1 = true) (hb2 : b2 = true) (hur : ur ≤ py)
    (h2 : 0 < payoff_amount s (t.loan_balance ur)) :
    applyPayoff t b1 b2 ur s py =
      { total_income := t.total_income
        total_expenses_excl_mortgage := t.total_expenses_excl_mortgage
        annual_mortgage_payment := fun y => if ur ≤ y then 0 else t.annual_mortgage_payment y
        total_expenses := fun y =>
          if ur ≤ y then t.total_expenses_excl_mortgage y else t.total_expenses y
        net_cashflow := fun y => if y = 0 then 0 else
          (t.total_income y -
            if ur ≤ y then t.total_expenses_excl_mortgage y else t.total_expenses y) -
          if y = ur then payoff_amount s (t.loan_balance ur) else 0
        loan_balance := fun y => if ur ≤ y then
            max 0 (t.loan_balance ur - payoff_amount s (t.loan_balance ur))
          else t.loan_balance y
        mortgage_lump_sum_payment := fun y =>
          if y = ur then payoff_amount s (t.loan_balance ur) else 0 } := by
  simp only [applyPayoff]
  rw [if_pos ⟨hb1, hb2, hur⟩, if_pos h2]

lemma applyPayoff_amount_nonpos_eq (t : MergedTable) (b1 b2 : Bool) (ur : ℕ) (s : ℚ)
    (py : ℕ) (h2 : ¬ 0 < payoff_amount s (t.loan_balance ur)) :
    applyPayoff t b1 b2 ur s py = t := by
  simp only [applyPayoff]
  by_cases h1 : b1 = true ∧ b2 = true ∧ ur ≤ py
  · rw [if_pos h1, if_neg h2]
  · rw [if_neg h1]

lemma applyPayoff_not_triggered (t : MergedTable) (b1 b2 : Bool) (ur : ℕ) (s : ℚ)
    (py : ℕ) (h1 : ¬(b1 = true ∧ b2 = true ∧ ur ≤ py)) :
    applyPayoff t b1 b2 ur s py = t := by
  simp only [applyPayoff]
  rw [if_neg h1]

lemma applyPayoff_net_zero (t : MergedTable) (b1 b2 : Bool) (ur : ℕ) (s : ℚ) (py : ℕ)
    (h0 : t.net_cashflow 0 = 0) : (applyPayoff t b1 b2 ur s py).net_cashflow 0 = 0 := by
  by_cases h1 : b1 = true ∧ b2 = true ∧ ur ≤ py
  · by_cases h2 : 0 < payoff_amount s (t.loan_balance ur)
    · rw [applyPayoff_pos_eq t b1 b2 ur s py h1.1 h1.2.1 h1.2.2 h2]
      simp
    · rw [applyPayoff_amount_nonpos_eq t b1 b2 ur s py h2]
      exact h0
  · rw [applyPayoff_not_triggered t b1 b2 ur s py h1]
    exact h0

/-- Claim C1: in the projection table, both before and after the payoff
adjustment, `Net_Cashflow[0] = 0`, `Cumulative_Cashflow[0] = 0`, and the
cumulative column satisfies
`Cumulative_Cashflow[y] = Cumulative_Cashflow[y-1] + Net_Cashflow[y]` for
`1 ≤ y ≤ projection_years`. -/
theorem cashflow_cumsum_invariant (p : ProjInput) (amp lb : ℕ → ℚ)
    (use_your_super_payoff : Bool) (y : ℕ) (hy : 1 ≤ y) (hyp : y ≤ p.projection_years) :
    net_cashflow p amp 0 = 0 ∧
    cumulative_cashflow (net_cashflow p amp) 0 = 0 ∧
    cumulative_cashflow (net_cashflow p amp) y =
      cumulative_cashflow (net_cashflow p amp) (y - 1) + net_cashflow p amp y ∧
    (adjusted_table p amp lb use_your_super_payoff).net_cashflow 0 = 0 ∧
    cumulative_cashflow (adjusted_table p amp lb use_your_super_payoff).net_cashflow 0 = 0 ∧
    cumulative_cashflow (adjusted_table p amp lb use_your_super_payoff).net_cashflow y =
      cumulative_cashflow (adjusted_table p amp lb use_your_super_payoff).net_cashflow (y - 1) +
        (adjusted_table p amp lb use_your_super_payoff).net_cashflow y := by
  have h0 : net_cashflow p amp 0 = 0 := by simp [net_cashflow]
  have h0a : (adjusted_table p amp lb use_your_super_payoff).net_cashflow 0 = 0 := by
    unfold adjusted_table
    exact applyPayoff_net_zero _ _ _ _ _ _ h0
  refine ⟨h0, ?_, cumulative_succ _ hy, h0a, ?_, cumulative_succ _ hy⟩
  · rw [cumulative_cashflow, Finset.sum_range_one, h0]
  · rw [cumulative_cashflow, Finset.sum_range_one, h0a]

/-- Claim C1 witness at the concrete scenario, year 1. -/
theorem cashflow_cumsum_invariant_witness :
    (1 : ℕ) ≤ 1 ∧ (1 : ℕ) ≤ cexInput.projection_years ∧
    (net_cashflow cexInput cexAmp 0 = 0 ∧
      cumulative_cashflow (net_cashflow cexInput cexAmp) 0 = 0 ∧
      cumulative_cashflow (net_cashflow cexInput cexAmp) 1 =
        cumulative_cashflow (net_cashflow cexInput cexAmp) (1 - 1) +
          net_cashflow cexInput cexAmp 1 ∧
      (adjusted_table cexInput cexAmp cexLb true).net_cashflow 0 = 0 ∧
      cumulative_cashflow (adjusted_table cexInput cexAmp cexLb true).net_cashflow 0 = 0 ∧
      cumulative_cashflow (adjusted_table cexInput cexAmp cexLb true).net_cashflow 1 =
        cumulative_cashflow (adjusted_table cexInput cexAmp cexLb true).net_cashflow (1 - 1) +
          (adjusted_table cexInput cexAmp cexLb true).net_cashflow 1) :=
  ⟨le_refl 1, by norm_num [cexInput],
    cashflow_cumsum_invariant cexInput cexAmp cexLb true 1 (le_refl 1)
      (by norm_num [cexInput])⟩

lemma payoff_amount_facts {s b : ℚ} (h : 0 < payoff_amount s b) :
    payoff_amount s b ≤ b ∧ max 0 (b - payoff_amount s b) = b - payoff_amount s b := by
  have hm : 0 < min s b := by
    by_contra hc
    push_neg at hc
    rw [payoff_amount, max_eq_left hc] at h
    exact lt_irrefl 0 h
  have heq : payoff_amount s b = min s b := max_eq_right hm.le
  rw [heq]
  exact ⟨min_le_right s b, max_eq_right (by linarith [min_le_right s b])⟩

/-- Claim C2 (amended): when super events and the payoff feature are enabled,
the retirement year Y is within the horizon, and the clamped amount
`max(0, min(super, Loan_Balance[Y]))` is positive (the code skips the whole
adjustment when it is 0), the adjusted table has, for every y ≥ Y,
`Loan_Balance[y] = Loan_Balance[Y] - amount`, `Annual_Mortgage_Payment[y] = 0`
and `Total_Expenses[y] = Total_Expenses_Excl_Mortgage[y]`; and for Y ≥ 1 the
payoff-year net cashflow equals the unadjusted figure plus the cancelled
year-Y mortgage payment minus the amount — the code zeroes the payoff year's
own scheduled payment as well, so the net reduction is the amount minus that
payment, not the amount alone. -/
theorem payoff_adjustment_spec (p : ProjInput) (amp lb : ℕ → ℚ)
    (hs : p.include_super_events = true)
    (hyr : p.user_retire_year ≤ p.projection_years)
    (hpos : 0 < payoff_amount p.user_super_amount (lb p.user_retire_year)) :
    (∀ y, p.user_retire_year ≤ y →
      (adjusted_table p amp lb true).loan_balance y =
        lb p.user_retire_year - payoff_amount p.user_super_amount (lb p.user_retire_year) ∧
      (adjusted_table p amp lb true).annual_mortgage_payment y = 0 ∧
      (adjusted_table p amp lb true).total_expenses y = total_expenses_excl_mortgage p y) ∧
    (1 ≤ p.user_retire_year →
      (adjusted_table p amp lb true).net_cashflow p.user_retire_year =
        net_cashflow p amp p.user_retire_year + amp p.user_retire_year -
          payoff_amount p.user_super_amount (lb p.user_retire_year)) := by
  have hmax := (payoff_amount_facts hpos).2
  have heq := applyPayoff_pos_eq (mergedOf p amp lb) p.include_super_events true
    p.user_retire_year p.user_super_amount p.projection_years hs rfl hyr hpos
  constructor
  · intro y hy
    refine ⟨?_, ?_, ?_⟩
    · unfold adjusted_table
      simp only [heq]
      simp only [mergedOf]
      rw [if_pos hy, hmax]
    · unfold adjusted_table
      simp only [heq]
      simp only [mergedOf]
      rw [if_pos hy]
    · unfold adjusted_table
      simp only [heq]
      simp only [mergedOf]
      rw [if_pos hy]
  · intro h1
    have hne : p.user_retire_year ≠ 0 := by omega
    unfold adjusted_table
    simp only [heq]
    simp only [mergedOf]
    rw [if_neg hne, if_pos (le_refl p.user_retire_year), if_pos trivial]
    rw [net_cashflow, if_neg hne, total_expenses]
    ring

/-- Claim C2 (amended) witness at the concrete scenario. -/
theorem payoff_adjustment_spec_witness :
    cexInput.include_super_events = true ∧
    cexInput.user_retire_year ≤ cexInput.projection_years ∧
    0 < payoff_amount cexInput.user_super_amount (cexLb cexInput.user_retire_year) ∧
    ((∀ y, cexInput.user_retire_year ≤ y →
      (adjusted_table cexInput cexAmp cexLb true).loan_balance y =
        cexLb cexInput.user_retire_year -
          payoff_amount cexInput.user_super_amount (cexLb cexInput.user_retire_year) ∧
      (adjusted_table cexInput cexAmp cexLb true).annual_mortgage_payment y = 0 ∧
      (adjusted_table cexInput cexAmp cexLb true).total_expenses y =
        total_expenses_excl_mortgage cexInput y) ∧
    (1 ≤ cexInput.user_retire_year →
      (adjusted_table cexInput cexAmp cexLb true).net_cashflow cexInput.user_retire_year =
        net_cashflow cexInput cexAmp cexInput.user_retire_year +
          cexAmp cexInput.user_retire_year -
          payoff_amount cexInput.user_super_amount (cexLb cexInput.user_retire_year))) :=
  ⟨rfl, by norm_num [cexInput], by norm_num [cexInput, cexLb, payoff_amount],
    payoff_adjustment_spec cexInput cexAmp cexLb rfl (by norm_num [cexInput])
      (by norm_num [cexInput, cexLb, payoff_amount])⟩

/-- Claim C2 counterexample: at the concrete scenario the payoff triggers with
amount 600 while the year-2 scheduled mortgage payment is 1000; the adjusted
year-2 net cashflow is 5000, but the claim's value — the unadjusted figure
reduced by exactly the amount applied — is 4600 - 600 = 4000. -/
theorem payoff_net_reduction_counterexample :
    payoff_amount cexInput.user_super_amount (cexLb cexInput.user_retire_year) = 600 ∧
    (adjusted_table cexInput cexAmp cexLb true).annual_mortgage_payment 2 = 0 ∧
    (adjusted_table cexInput cexAmp cexLb true).loan_balance 2 = 7400 ∧
    net_cashflow cexInput cexAmp 2 = 4600 ∧
    (adjusted_table cexInput cexAmp cexLb true).net_cashflow 2 = 5000 ∧
    (adjusted_table cexInput cexAmp cexLb true).net_cashflow 2 ≠
      net_cashflow cexInput cexAmp 2 -
        payoff_amount cexInput.user_super_amount (cexLb cexInput.user_retire_year) := by
  have h2 : 0 < payoff_amount cexInput.user_super_amount
      ((mergedOf cexInput cexAmp cexLb).loan_balance cexInput.user_retire_year) := by
    norm_num [payoff_amount, mergedOf, cexInput, cexLb, max_def, min_def]
  have heq := applyPayoff_pos_eq (mergedOf cexInput cexAmp cexLb)
    cexInput.include_super_events true cexInput.user_retire_year cexInput.user_super_amount
    cexInput.projection_years rfl rfl (by norm_num [cexInput]) h2
  have hamt : payoff_amount cexInput.user_super_amount (cexLb cexInput.user_retire_year) =
      600 := by
    norm_num [payoff_amount, cexInput, cexLb, max_def, min_def]
  have hnet4 : net_cashflow cexInput cexAmp 2 = 4600 := by
    norm_num [net_cashflow, total_income, total_expenses, total_expenses_excl_mortgage,
      employment_income, user_income, partner_income, rental_income, agistment_income,
      lump_sum_income, education_expenses, cexInput, cexAmp]
  have hadj : (adjusted_table cexInput cexAmp cexLb true).net_cashflow 2 = 5000 := by
    unfold adjusted_table
    simp only [heq]
    simp only [mergedOf]
    norm_num [total_income, total_expenses_excl_mortgage, employment_income, user_income,
      partner_income, rental_income, agistment_income, lump_sum_income, education_expenses,
      payoff_amount, cexInput, cexAmp, cexLb, max_def, min_def]
  have hamp : (adjusted_table cexInput cexAmp cexLb true).annual_mortgage_payment 2 = 0 := by
    unfold adjusted_table
    simp only [heq]
    norm_num [cexInput]
  have hlb : (adjusted_table cexInput cexAmp cexLb true).loan_balance 2 = 7400 := by
    unfold adjusted_table
    simp only [heq]
    simp only [mergedOf]
    norm_num [payoff_amount, cexInput, cexLb, max_def, min_def]
  refine ⟨hamt, hamp, hlb, hnet4, hadj, ?_⟩
  rw [hadj, hnet4, hamt]
  norm_num

/-- Claim C3: every row strictly before the payoff year is untouched by the
payoff adjustment — loan balance, mortgage payment, total expenses and net
cashflow keep their pre-adjustment values — and since the cumulative column
is recomputed as a fresh running sum over the whole adjusted net series, the
cumulative value before the payoff year also equals its pre-adjustment
value. -/
theorem payoff_frame_preserved (p : ProjInput) (amp lb : ℕ → ℚ)
    (use_your_super_payoff : Bool) (y : ℕ) (hy : y < p.user_retire_year) :
    (adjusted_table p amp lb use_your_super_payoff).loan_balance y = lb y ∧
    (adjusted_table p amp lb use_your_super_payoff).annual_mortgage_payment y = amp y ∧
    (adjusted_table p amp lb use_your_super_payoff).total_expenses y =
      total_expenses p amp y ∧
    (adjusted_table p amp lb use_your_super_payoff).net_cashflow y = net_cashflow p amp y ∧
    cumulative_cashflow (adjusted_table p amp lb use_your_super_payoff).net_cashflow y =
      cumulative_cashflow (net_cashflow p amp) y := by
  by_cases h1 : p.include_super_events = true ∧ use_your_super_payoff = true ∧
      p.user_retire_year ≤ p.projection_years
  case neg =>
    unfold adjusted_table
    rw [applyPayoff_not_triggered _ _ _ _ _ _ h1]
    exact ⟨rfl, rfl, rfl, rfl, rfl⟩
  case pos =>
  by_cases h2 : 0 < payoff_amount p.user_super_amount
      ((mergedOf p amp lb).loan_balance p.user_retire_year)
  case neg =>
    unfold adjusted_table
    rw [applyPayoff_amount_nonpos_eq _ _ _ _ _ _ h2]
    exact ⟨rfl, rfl, rfl, rfl, rfl⟩
  case pos =>
  have heq := applyPayoff_pos_eq (mergedOf p amp lb) p.include_super_events
    use_your_super_payoff p.user_retire_year p.user_super_amount p.projection_years
    h1.1 h1.2.1 h1.2.2 h2
  have hnet : ∀ z, z < p.user_retire_year →
      (adjusted_table p amp lb use_your_super_payoff).net_cashflow z =
        net_cashflow p amp z := by
    intro z hz
    unfold adjusted_table
    simp only [heq]
    simp only [mergedOf]
    by_cases hz0 : z = 0
    · subst hz0
      simp [net_cashflow]
    · rw [if_neg hz0, if_neg (by omega : ¬ p.user_retire_year ≤ z),
        if_neg (by omega : ¬ z = p.user_retire_year), net_cashflow, if_neg hz0]
      ring
  refine ⟨?_, ?_, ?_, hnet y hy, ?_⟩
  · unfold adjusted_table
    simp only [heq]
    simp only [mergedOf]
    rw [if_neg (by omega : ¬ p.user_retire_year ≤ y)]
  · unfold adjusted_table
    simp only [heq]
    simp only [mergedOf]
    rw [if_neg (by omega : ¬ p.user_retire_year ≤ y)]
  · unfold adjusted_table
    simp only [heq]
    simp only [mergedOf]
    rw [if_neg (by omega : ¬ p.user_retire_year ≤ y)]
  · unfold cumulative_cashflow
    refine Finset.sum_congr rfl (fun k hk => ?_)
    rw [Finset.mem_range] at hk
    exact hnet k (by omega)

/-- Claim C3 witness at the concrete scenario, year 1 < retirement year 2. -/
theorem payoff_frame_preserved_witness :
    (1 : ℕ) < cexInput.user_retire_year ∧
    ((adjusted_table cexInput cexAmp cexLb true).loan_balance 1 = cexLb 1 ∧
      (adjusted_table cexInput cexAmp cexLb true).annual_mortgage_payment 1 = cexAmp 1 ∧
      (adjusted_table cexInput cexAmp cexLb true).total_expenses 1 =
        total_expenses cexInput cexAmp 1 ∧
      (adjusted_table cexInput cexAmp cexLb true).net_cashflow 1 =
        net_cashflow cexInput cexAmp 1 ∧
      cumulative_cashflow (adjusted_table cexInput cexAmp cexLb true).net_cashflow 1 =
        cumulative_cashflow (net_cashflow cexInput cexAmp) 1) :=
  ⟨by norm_num [cexInput],
    payoff_frame_preserved cexInput cexAmp cexLb true 1 (by norm_num [cexInput])⟩

/-- Claim C7: with `C = floor(years_until_edu_change)`, the education expense
follows three regimes when phasing is enabled — the original
child-count × per-child fee, inflated, through year C; the
child-count × new per-child fee, inflated, for years C+1 .. C+duration;
then 0 — and the original inflated fee for the whole horizon when phasing is
disabled.  (The app builds `annual_boarding_expenses` as
child count × per-child fee, which the hypothesis mirrors.) -/
theorem education_regimes (p : ProjInput) (fee : ℚ)
    (hfee : p.annual_boarding_expenses = p.num_children_boarding * fee) (y : ℕ) :
    (p.include_education_change = true →
      (((y : ℤ) ≤ ⌊p.years_until_edu_change⌋ →
        education_expenses p y =
          p.num_children_boarding * fee * (1 + p.inflation_rate / 100) ^ y) ∧
      ((⌊p.years_until_edu_change⌋ + 1 ≤ (y : ℤ) ∧
          (y : ℤ) ≤ ⌊p.years_until_edu_change⌋ + (p.duration_of_new_cost : ℤ)) →
        education_expenses p y =
          p.num_children_boarding * p.new_annual_edu_cost_per_child *
            (1 + p.inflation_rate / 100) ^ y) ∧
      (⌊p.years_until_edu_change⌋ + (p.duration_of_new_cost : ℤ) < (y : ℤ) →
        education_expenses p y = 0))) ∧
    (p.include_education_change = false →
      education_expenses p y =
        p.num_children_boarding * fee * (1 + p.inflation_rate / 100) ^ y) := by
  unfold education_expenses edu_change_ends_after_year
  set C := ⌊p.years_until_edu_change⌋ with hC
  constructor
  · intro hen
    rw [if_pos hen]
    refine ⟨fun h1 => ?_, fun h2 => ?_, fun h3 => ?_⟩
    · rw [if_pos h1, hfee]
    · rw [if_neg (by omega : ¬ (y : ℤ) ≤ C), if_pos h2]
      ring
    · rw [if_neg (by omega : ¬ (y : ℤ) ≤ C),
        if_neg (by omega : ¬ (C + 1 ≤ (y : ℤ) ∧ (y : ℤ) ≤ C + (p.duration_of_new_cost : ℤ)))]
  · intro hdis
    rw [if_neg (by simp [hdis]), hfee]

/-- Claim C7 witness at the spec's education scenario, year 4 (first year of
the new-fee window). -/
theorem education_regimes_witness :
    eduInput.annual_boarding_expenses = eduInput.num_children_boarding * 50000 ∧
    ((eduInput.include_education_change = true →
      (((4 : ℤ) ≤ ⌊eduInput.years_until_edu_change⌋ →
        education_expenses eduInput 4 =
          eduInput.num_children_boarding * 50000 * (1 + eduInput.inflation_rate / 100) ^ 4) ∧
      ((⌊eduInput.years_until_edu_change⌋ + 1 ≤ (4 : ℤ) ∧
          (4 : ℤ) ≤ ⌊eduInput.years_until_edu_change⌋ +
            (eduInput.duration_of_new_cost : ℤ)) →
        education_expenses eduInput 4 =
          eduInput.num_children_boarding * eduInput.new_annual_edu_cost_per_child *
            (1 + eduInput.inflation_rate / 100) ^ 4) ∧
      (⌊eduInput.years_until_edu_change⌋ + (eduInput.duration_of_new_cost : ℤ) < (4 : ℤ) →
        education_expenses eduInput 4 = 0))) ∧
    (eduInput.include_education_change = false →
      education_expenses eduInput 4 =
        eduInput.num_children_boarding * 50000 * (1 + eduInput.inflation_rate / 100) ^ 4)) :=
  ⟨by norm_num [eduInput, cexInput], education_regimes eduInput 50000
    (by norm_num [eduInput, cexInput]) 4⟩

/-- Claim C8: with super events enabled, each earner's employment income
contribution is the growing base strictly before their retirement year and
the constant post-retirement figure from their retirement year on, and the
lump-sum column receives each earner's super amount exactly in their
retirement year and in no other year. -/
theorem retirement_income_spec (p : ProjInput) (hs : p.include_super_events = true) :
    (∀ y, y < p.user_retire_year →
      user_income p y = p.annual_user_income * (1 + p.income_growth_rate / 100) ^ y) ∧
    (∀ y, p.user_retire_year ≤ y → user_income p y = p.post_retirement_income_user) ∧
    (∀ y, y < p.wife_retire_year →
      partner_income p y = p.annual_partner_income * (1 + p.income_growth_rate / 100) ^ y) ∧
    (∀ y, p.wife_retire_year ≤ y → partner_income p y = p.post_retirement_income_partner) ∧
    (∀ y, lump_sum_income p y =
      (if y = p.user_retire_year then p.user_super_amount else 0) +
        (if y = p.wife_retire_year then p.wife_super_amount else 0)) := by
  refine ⟨fun y hy => ?_, fun y hy => ?_, fun y hy => ?_, fun y hy => ?_, fun y => ?_⟩
  · unfold user_income
    rw [if_neg (fun hc => absurd hc.2 (by omega))]
  · unfold user_income
    rw [if_pos ⟨hs, hy⟩]
  · unfold partner_income
    rw [if_neg (fun hc => absurd hc.2 (by omega))]
  · unfold partner_income
    rw [if_pos ⟨hs, hy⟩]
  · unfold lump_sum_income
    by_cases h1 : y = p.user_retire_year
    · by_cases h2 : y = p.wife_retire_year
      · rw [if_pos ⟨hs, h1⟩, if_pos ⟨hs, h2⟩, if_pos h1, if_pos h2]
      · rw [if_pos ⟨hs, h1⟩, if_neg (fun hc => h2 hc.2), if_pos h1, if_neg h2]
    · by_cases h2 : y = p.wife_retire_year
      · rw [if_neg (fun hc => h1 hc.2), if_pos ⟨hs, h2⟩, if_neg h1, if_pos h2]
      · rw [if_neg (fun hc => h1 hc.2), if_neg (fun hc => h2 hc.2), if_neg h1, if_neg h2]

/-- Claim C8 witness at the concrete scenario. -/
theorem retirement_income_spec_witness :
    cexInput.include_super_events = true ∧
    ((∀ y, y < cexInput.user_retire_year →
      user_income cexInput y =
        cexInput.annual_user_income * (1 + cexInput.income_growth_rate / 100) ^ y) ∧
    (∀ y, cexInput.user_retire_year ≤ y →
      user_income cexInput y = cexInput.post_retirement_income_user) ∧
    (∀ y, y < cexInput.wife_retire_year →
      partner_income cexInput y =
        cexInput.annual_partner_income * (1 + cexInput.income_growth_rate / 100) ^ y) ∧
    (∀ y, cexInput.wife_retire_year ≤ y →
      partner_income cexInput y = cexInput.post_retirement_income_partner) ∧
    (∀ y, lump_sum_income cexInput y =
      (if y = cexInput.user_retire_year then cexInput.user_super_amount else 0) +
        (if y = cexInput.wife_retire_year then cexInput.wife_super_amount else 0))) :=
  ⟨rfl, retirement_income_spec cexInput rfl⟩

end DorrigoSim

